import Mathlib

/-!
Verification of the KokkosTest convolution benchmark scripts.

The repository holds two Python scripts that generate a square image and a
square kernel, filter the image with the kernel through a numerical library,
and time the call.  The harness code (array generation, the diagnostic
printer, the mode dispatch) is embedded here directly from the source.  The
filtering routines themselves live in the external numerical library, so they
are modelled from the specification of their behaviour.
-/

/-- A 2-D integer array: a shape together with the value at each index.
Indices outside the shape are not meaningful. -/
structure Array2D where
  rows : Nat
  cols : Nat
  data : Nat → Nat → Int

/-- A single element assignment `a[i, j] = v`, as performed inside the fill
loop of `make_2d`. -/
def writeCell (a : Array2D) (i j : Nat) (v : Int) : Array2D :=
  ⟨a.rows, a.cols, fun x y => if x = i ∧ y = j then v else a.data x y⟩

/-- The inner loop of `make_2d`: `for j in range(a.cols): a[i, j] = i + j`. -/
def fillRow (a : Array2D) (i : Nat) : Array2D :=
  (List.range a.cols).foldl (fun acc j => writeCell acc i j ((i : Int) + (j : Int))) a

/-- The body of `make_2d` run on an explicit initial buffer: `np.empty` gives
an array with unspecified contents (`init`), then the two nested loops write
`i + j` at every index. -/
def makeTwoDFrom (init : Nat → Nat → Int) (side : Nat) : Array2D :=
  (List.range side).foldl fillRow ⟨side, side, init⟩

/-- `make_2d(side)` from `src/python/NumpyBenchmarkConvolution.py`: allocate a
`side × side` buffer with `np.empty` (contents unspecified; the placeholder
`fun _ _ => 0` stands for the garbage, and independence from it is proved
separately) and fill `image[i, j] = i + j`. -/
def make_2d (side : Nat) : Array2D :=
  makeTwoDFrom (fun _ _ => 0) side

/-- `np.ones([n, n], dtype=int)` from `src/NumpyBenchmarkConvolution.py`. -/
def onesArr (n : Nat) : Array2D :=
  ⟨n, n, fun _ _ => 1⟩

/-- Sum of `f 0 + f 1 + ... + f (n-1)`. -/
def sumTo (n : Nat) (f : Nat → Int) : Int :=
  match n with
  | 0 => 0
  | m + 1 => sumTo m f + f m

/-- Double sum over the index rectangle `m × n`. -/
def sum2 (m n : Nat) (f : Nat → Nat → Int) : Int :=
  sumTo m (fun u => sumTo n (fun v => f u v))

/-- Modelled from the spec: `scipy.signal.correlate(image, kernel, mode="valid")`
is missing from the sources (it lives in the external library).  Per the spec,
with `mode` absent the program performs finite-support 2-D correlation with
"valid" boundary handling: output shape `(image_h - kernel_h + 1,
image_w - kernel_w + 1)`, each output element the sliding dot product of the
kernel with the image patch under it, and a defined error (modelled as `none`)
when `kernel_h > image_h` or `kernel_w > image_w`. -/
def correlateValid (img ker : Array2D) : Option Array2D :=
  if ker.rows ≤ img.rows ∧ ker.cols ≤ img.cols then
    some ⟨img.rows - ker.rows + 1, img.cols - ker.cols + 1,
      fun i j => sum2 ker.rows ker.cols (fun u v => img.data (i + u) (j + v) * ker.data u v)⟩
  else none

/-- Modelled from the spec: `scipy.signal.convolve(image, kernel, mode="valid")`
is missing from the sources.  Same as valid correlation but with the kernel
flipped in both dimensions. -/
def convolveValid (img ker : Array2D) : Option Array2D :=
  if ker.rows ≤ img.rows ∧ ker.cols ≤ img.cols then
    some ⟨img.rows - ker.rows + 1, img.cols - ker.cols + 1,
      fun i j => sum2 ker.rows ker.cols
        (fun u v => img.data (i + u) (j + v) * ker.data (ker.rows - 1 - u) (ker.cols - 1 - v))⟩
  else none

/-- The boundary-extrapolation policies the spec requires at minimum. -/
inductive ExtrapolationMode where
  | reflect
  | constant
  | nearest
  | wrap
deriving DecidableEq, Repr

/-- Modelled from the spec: value of a 1-D sequence of length `n` (read through
`get`) at a possibly out-of-range index `k`, under a boundary-extrapolation
policy.  `reflect` mirrors about the edge, `constant` is zero fill, `nearest`
replicates the edge, `wrap` is periodic. -/
def extendGet (mode : ExtrapolationMode) (n : Nat) (get : Nat → Int) (k : Int) : Int :=
  if 0 ≤ k ∧ k < (n : Int) then get k.toNat
  else
    match mode with
    | ExtrapolationMode.constant => 0
    | ExtrapolationMode.nearest => if k < 0 then get 0 else get (n - 1)
    | ExtrapolationMode.wrap => get (k % (n : Int)).toNat
    | ExtrapolationMode.reflect =>
        let m := (k % (2 * (n : Int))).toNat
        if m < n then get m else get (2 * n - 1 - m)

/-- Two-dimensional boundary extension of an image, applying the policy along
rows and then along columns. -/
def extendGet2 (mode : ExtrapolationMode) (img : Array2D) (x y : Int) : Int :=
  extendGet mode img.rows (fun i => extendGet mode img.cols (fun j => img.data i j) y) x

/-- Modelled from the spec: `scipy.ndimage.correlate(image, kernel, mode=m)` is
missing from the sources.  Per the spec, with `mode` present the program
performs 2-D correlation with the named boundary-extrapolation policy,
producing output the same shape as the input image; the kernel is centred
(origin at `size / 2` in each dimension) and out-of-range image reads go
through the extension policy. -/
def ndimageCorrelate (img ker : Array2D) (mode : ExtrapolationMode) : Array2D :=
  ⟨img.rows, img.cols,
    fun i j => sum2 ker.rows ker.cols
      (fun u v => extendGet2 mode img
        ((i : Int) + u - (ker.rows / 2 : Nat)) ((j : Int) + v - (ker.cols / 2 : Nat))
        * ker.data u v)⟩

/-- Modelled from the spec: `scipy.ndimage.convolve(image, kernel, mode=m)` is
missing from the sources.  Same-shape output as for `ndimageCorrelate`, with
the kernel flipped in both dimensions. -/
def ndimageConvolve (img ker : Array2D) (mode : ExtrapolationMode) : Array2D :=
  ⟨img.rows, img.cols,
    fun i j => sum2 ker.rows ker.cols
      (fun u v => extendGet2 mode img
        ((i : Int) + u - (ker.rows / 2 : Nat)) ((j : Int) + v - (ker.cols / 2 : Nat))
        * ker.data (ker.rows - 1 - u) (ker.cols - 1 - v))⟩

/-- The filter dispatch of `src/python/NumpyBenchmarkConvolution.py`: with
`method == None` call `signal.correlate(input, kernel, mode="valid")`,
otherwise `ndimage.correlate(input, kernel, mode=method)`.  The timing around
the call does not affect the output and is not modelled. -/
def filterDispatch (img ker : Array2D) (mode : Option ExtrapolationMode) : Option Array2D :=
  match mode with
  | none => correlateValid img ker
  | some m => some (ndimageCorrelate img ker m)

/-- The filter dispatch of `src/NumpyBenchmarkConvolution.py` (the all-ones
variant): with `method == None` call `signal.convolve(input, kernel,
mode="valid")`, otherwise `ndimage.convolve(input, kernel, mode=method)`. -/
def filterDispatchV1 (img ker : Array2D) (mode : Option ExtrapolationMode) : Option Array2D :=
  match mode with
  | none => convolveValid img ker
  | some m => some (ndimageConvolve img ker m)

/-- The end-to-end run of `src/python/NumpyBenchmarkConvolution.py`: generate
image and kernel with `make_2d` and dispatch on the mode.  `none` models an
uncaught library error that aborts the process. -/
def run (imageSize kernelSize : Nat) (mode : Option ExtrapolationMode) : Option Array2D :=
  filterDispatch (make_2d imageSize) (make_2d kernelSize) mode

/-- The end-to-end run of `src/NumpyBenchmarkConvolution.py`: image and kernel
are all ones. -/
def runV1 (imageSize kernelSize : Nat) (mode : Option ExtrapolationMode) : Option Array2D :=
  filterDispatchV1 (onesArr imageSize) (onesArr kernelSize) mode

/-- `print_2d(name, image)` from `src/python/NumpyBenchmarkConvolution.py`,
modelled as the list of lines it prints: the name, the shape as
`cols x rows` (the source prints `shape[1] x shape[0]`), and the first and
last elements (`image[0,0]` and `image[-1,-1]`). -/
def print_2d (name : String) (img : Array2D) : List String :=
  [name ++ ":",
   "  " ++ toString img.cols ++ " x " ++ toString img.rows,
   "  [" ++ toString (img.data 0 0) ++ ", ... , "
     ++ toString (img.data (img.rows - 1) (img.cols - 1)) ++ "]"]

/-- Read an `Array2D` back as a list of rows, for concrete evaluation. -/
def toLists (a : Array2D) : List (List Int) :=
  (List.range a.rows).map (fun i => (List.range a.cols).map (fun j => a.data i j))

example : toLists (make_2d 2) = [[0, 1], [1, 2]] := by decide

/-! ## Loop lemmas for the fill loops of `make_2d` -/

lemma writeCell_rows (a : Array2D) (i j : Nat) (v : Int) : (writeCell a i j v).rows = a.rows :=
  rfl

lemma writeCell_cols (a : Array2D) (i j : Nat) (v : Int) : (writeCell a i j v).cols = a.cols :=
  rfl

lemma writeCell_data (a : Array2D) (i j : Nat) (v : Int) (x y : Nat) :
    (writeCell a i j v).data x y = if x = i ∧ y = j then v else a.data x y :=
  rfl

lemma foldWrite_rows (i : Nat) (l : List Nat) (a : Array2D) :
    ((l.foldl (fun acc j => writeCell acc i j ((i : Int) + (j : Int))) a)).rows = a.rows := by
  induction l generalizing a with
  | nil => rfl
  | cons hd tl ih => simpa using ih (writeCell a i hd ((i : Int) + (hd : Int)))

lemma foldWrite_cols (i : Nat) (l : List Nat) (a : Array2D) :
    ((l.foldl (fun acc j => writeCell acc i j ((i : Int) + (j : Int))) a)).cols = a.cols := by
  induction l generalizing a with
  | nil => rfl
  | cons hd tl ih => simpa using ih (writeCell a i hd ((i : Int) + (hd : Int)))

lemma rangeFoldWrite (i : Nat) (n : Nat) (a : Array2D) (x y : Nat) :
    ((List.range n).foldl (fun acc j => writeCell acc i j ((i : Int) + (j : Int))) a).data x y
      = if x = i ∧ y < n then (i : Int) + (y : Int) else a.data x y := by
  induction n generalizing a with
  | zero => simp
  | succ n ih =>
    rw [List.range_succ, List.foldl_append]
    simp only [List.foldl_cons, List.foldl_nil]
    rw [writeCell_data, ih]
    by_cases hx : x = i
    · subst hx
      by_cases hy : y = n
      · subst hy; simp
      · by_cases hy2 : y < n
        · simp [hy, hy2, Nat.lt_succ_of_lt hy2]
        · have : ¬ y < n + 1 := by omega
          simp [hy, hy2, this]
    · simp [hx]

lemma fillRow_rows (a : Array2D) (i : Nat) : (fillRow a i).rows = a.rows :=
  foldWrite_rows i (List.range a.cols) a

lemma fillRow_cols (a : Array2D) (i : Nat) : (fillRow a i).cols = a.cols :=
  foldWrite_cols i (List.range a.cols) a

lemma fillRow_data (a : Array2D) (i x y : Nat) :
    (fillRow a i).data x y
      = if x = i ∧ y < a.cols then (i : Int) + (y : Int) else a.data x y :=
  rangeFoldWrite i a.cols a x y

lemma foldFill_rows (l : List Nat) (a : Array2D) : ((l.foldl fillRow a)).rows = a.rows := by
  induction l generalizing a with
  | nil => rfl
  | cons hd tl ih => simpa [fillRow_rows] using ih (fillRow a hd)

lemma foldFill_cols (l : List Nat) (a : Array2D) : ((l.foldl fillRow a)).cols = a.cols := by
  induction l generalizing a with
  | nil => rfl
  | cons hd tl ih => simpa [fillRow_cols] using ih (fillRow a hd)

lemma rangeFoldFill (m : Nat) (a : Array2D) (x y : Nat) :
    ((List.range m).foldl fillRow a).data x y
      = if x < m ∧ y < a.cols then (x : Int) + (y : Int) else a.data x y := by
  induction m generalizing a with
  | zero => simp
  | succ m ih =>
    rw [List.range_succ, List.foldl_append]
    simp only [List.foldl_cons, List.foldl_nil]
    rw [fillRow_data, foldFill_cols, ih]
    by_cases hx : x = m
    · subst hx
      by_cases hy : y < a.cols
      · simp [hy]
      · simp [hy]
    · by_cases hx2 : x < m
      · have : x < m + 1 := by omega
        simp [hx, hx2, this]
      · have : ¬ x < m + 1 := by omega
        simp [hx, hx2, this]

lemma makeTwoDFrom_rows (init : Nat → Nat → Int) (side : Nat) :
    (makeTwoDFrom init side).rows = side :=
  foldFill_rows (List.range side) ⟨side, side, init⟩

lemma makeTwoDFrom_cols (init : Nat → Nat → Int) (side : Nat) :
    (makeTwoDFrom init side).cols = side :=
  foldFill_cols (List.range side) ⟨side, side, init⟩

lemma makeTwoDFrom_data (init : Nat → Nat → Int) (side : Nat) (i j : Nat)
    (hi : i < side) (hj : j < side) :
    (makeTwoDFrom init side).data i j = (i : Int) + (j : Int) := by
  unfold makeTwoDFrom
  rw [rangeFoldFill]
  simp [hi, hj]

lemma make_2d_rows (side : Nat) : (make_2d side).rows = side :=
  makeTwoDFrom_rows _ side

lemma make_2d_cols (side : Nat) : (make_2d side).cols = side :=
  makeTwoDFrom_cols _ side

lemma make_2d_data (side i j : Nat) (hi : i < side) (hj : j < side) :
    (make_2d side).data i j = (i : Int) + (j : Int) :=
  makeTwoDFrom_data _ side i j hi hj

lemma sumTo_const (n : Nat) (c : Int) : sumTo n (fun _ => c) = (n : Int) * c := by
  induction n with
  | zero => simp [sumTo]
  | succ n ih =>
    rw [sumTo, ih]
    push_cast
    ring

lemma sum2_const (m n : Nat) (c : Int) :
    sum2 m n (fun _ _ => c) = (m : Int) * ((n : Int) * c) := by
  unfold sum2
  have h : (fun _ : Nat => sumTo n (fun _ => c)) = fun _ : Nat => (n : Int) * c := by
    funext u
    exact sumTo_const n c
  rw [h, sumTo_const]

/-! ## The claims -/

/-- C1: for every image and kernel with `kernel_h ≤ image_h` and
`kernel_w ≤ image_w`, valid-mode filtering succeeds and returns an output of
shape `(image_h - kernel_h + 1, image_w - kernel_w + 1)`, which is
non-empty. -/
theorem C1_valid_output_shape (img ker : Array2D)
    (hr : ker.rows ≤ img.rows) (hc : ker.cols ≤ img.cols) :
    ∃ out, correlateValid img ker = some out ∧
      out.rows = img.rows - ker.rows + 1 ∧ out.cols = img.cols - ker.cols + 1 ∧
      0 < out.rows ∧ 0 < out.cols := by
  unfold correlateValid
  rw [if_pos ⟨hr, hc⟩]
  exact ⟨_, rfl, rfl, rfl, Nat.succ_pos _, Nat.succ_pos _⟩

theorem C1_valid_output_shape_witness :
    ∃ out, correlateValid (make_2d 3) (make_2d 2) = some out ∧
      out.rows = (make_2d 3).rows - (make_2d 2).rows + 1 ∧
      out.cols = (make_2d 3).cols - (make_2d 2).cols + 1 ∧
      0 < out.rows ∧ 0 < out.cols :=
  C1_valid_output_shape (make_2d 3) (make_2d 2) (by decide) (by decide)

/-- C2: for every image, kernel and extrapolation policy, the filter with the
mode present returns an output whose shape equals the input image shape, in
both script variants. -/
theorem C2_extrapolated_output_shape (img ker : Array2D) (mode : ExtrapolationMode) :
    (ndimageCorrelate img ker mode).rows = img.rows ∧
    (ndimageCorrelate img ker mode).cols = img.cols ∧
    (ndimageConvolve img ker mode).rows = img.rows ∧
    (ndimageConvolve img ker mode).cols = img.cols ∧
    (filterDispatch img ker (some mode)).map Array2D.rows = some img.rows ∧
    (filterDispatch img ker (some mode)).map Array2D.cols = some img.cols :=
  ⟨rfl, rfl, rfl, rfl, rfl, rfl⟩

/-- C3: for every `side ≥ 1`, `make_2d side` is a `side × side` array with
element `(0,0) = 0`, element `(side-1, side-1) = 2*(side-1)`, and in general
element `(i,j) = i + j`. -/
theorem C3_make_2d_index_sum (side i j : Nat) (h : 1 ≤ side)
    (hi : i < side) (hj : j < side) :
    (make_2d side).rows = side ∧ (make_2d side).cols = side ∧
    (make_2d side).data 0 0 = 0 ∧
    (make_2d side).data (side - 1) (side - 1) = 2 * ((side : Int) - 1) ∧
    (make_2d side).data i j = (i : Int) + (j : Int) := by
  refine ⟨make_2d_rows side, make_2d_cols side, ?_, ?_, make_2d_data side i j hi hj⟩
  · rw [make_2d_data side 0 0 h h]
    rfl
  · rw [make_2d_data side (side - 1) (side - 1) (by omega) (by omega)]
    omega

theorem C3_make_2d_index_sum_witness :
    (make_2d 3).rows = 3 ∧ (make_2d 3).cols = 3 ∧
    (make_2d 3).data 0 0 = 0 ∧
    (make_2d 3).data (3 - 1) (3 - 1) = 2 * ((3 : Int) - 1) ∧
    (make_2d 3).data 2 1 = (2 : Int) + (1 : Int) :=
  C3_make_2d_index_sum 3 2 1 (by decide) (by decide) (by decide)

/-- C4: the end-to-end run with `image=4`, `kernel=2`, mode absent generates
the stated image and kernel, an output of shape `(3, 3)`, and output element
`(0,0)` equal to the dot product of the top-left `2 × 2` image patch with the
kernel, which is `6`. -/
theorem C4_end_to_end_4_2 :
    toLists (make_2d 4) = [[0, 1, 2, 3], [1, 2, 3, 4], [2, 3, 4, 5], [3, 4, 5, 6]] ∧
    toLists (make_2d 2) = [[0, 1], [1, 2]] ∧
    (run 4 2 none).map (fun o => (o.rows, o.cols)) = some (3, 3) ∧
    (run 4 2 none).map (fun o => o.data 0 0)
      = some (sum2 2 2 (fun u v => (make_2d 4).data u v * (make_2d 2).data u v)) ∧
    (run 4 2 none).map (fun o => o.data 0 0) = some 6 := by
  decide

/-- C5: when the mode is absent and the kernel exceeds the image in a
dimension, the filter fails with a defined error; the error is not caught, so
the end-to-end run fails (modelled by `none` propagating out of `run`), in
both script variants. -/
theorem C5_valid_mode_error (isz ksz : Nat) (h : isz < ksz) :
    correlateValid (make_2d isz) (make_2d ksz) = none ∧
    run isz ksz none = none ∧
    convolveValid (onesArr isz) (onesArr ksz) = none ∧
    runV1 isz ksz none = none := by
  have hc : correlateValid (make_2d isz) (make_2d ksz) = none := by
    unfold correlateValid
    rw [make_2d_rows, make_2d_rows, make_2d_cols, make_2d_cols, if_neg (by omega)]
  have hv : convolveValid (onesArr isz) (onesArr ksz) = none := by
    have hcond :
        ¬ ((onesArr ksz).rows ≤ (onesArr isz).rows ∧ (onesArr ksz).cols ≤ (onesArr isz).cols) := by
      show ¬ (ksz ≤ isz ∧ ksz ≤ isz)
      omega
    unfold convolveValid
    rw [if_neg hcond]
  exact ⟨hc, hc, hv, hv⟩

theorem C5_valid_mode_error_witness :
    correlateValid (make_2d 2) (make_2d 3) = none ∧
    run 2 3 none = none ∧
    convolveValid (onesArr 2) (onesArr 3) = none ∧
    runV1 2 3 none = none :=
  C5_valid_mode_error 2 3 (by decide)

/-- C6: the end-to-end run with `image=1`, `kernel=1`, mode absent yields an
output of shape `(1, 1)` whose single value is
`image[0,0] * kernel[0,0] = 0`. -/
theorem C6_end_to_end_1_1 :
    (run 1 1 none).map (fun o => (o.rows, o.cols)) = some (1, 1) ∧
    (run 1 1 none).map (fun o => o.data 0 0)
      = some ((make_2d 1).data 0 0 * (make_2d 1).data 0 0) ∧
    (run 1 1 none).map (fun o => o.data 0 0) = some 0 := by
  decide

/-- C7: the filter is deterministic: two runs on identical image and kernel
arrays with the same mode return identical outputs, in both script
variants. -/
theorem C7_filter_deterministic (img1 img2 ker1 ker2 : Array2D)
    (mode : Option ExtrapolationMode) (h1 : img1 = img2) (h2 : ker1 = ker2) :
    filterDispatch img1 ker1 mode = filterDispatch img2 ker2 mode ∧
    filterDispatchV1 img1 ker1 mode = filterDispatchV1 img2 ker2 mode := by
  subst h1
  subst h2
  exact ⟨rfl, rfl⟩

theorem C7_filter_deterministic_witness :
    filterDispatch (make_2d 3) (make_2d 2) none = filterDispatch (make_2d 3) (make_2d 2) none ∧
    filterDispatchV1 (make_2d 3) (make_2d 2) none
      = filterDispatchV1 (make_2d 3) (make_2d 2) none :=
  C7_filter_deterministic (make_2d 3) (make_2d 3) (make_2d 2) (make_2d 2) none rfl rfl

/-- C8: `print_2d` is idempotent in its output text, and the text depends only
on the name, the shape and the first and last elements — never on the rest of
the array contents: two arrays agreeing on those produce identical text. -/
theorem C8_print_2d_bounded (n1 n2 : String) (a b : Array2D)
    (hn : n1 = n2) (hr : a.rows = b.rows) (hcol : a.cols = b.cols)
    (h0 : a.data 0 0 = b.data 0 0)
    (hl : a.data (a.rows - 1) (a.cols - 1) = b.data (b.rows - 1) (b.cols - 1)) :
    print_2d n1 a = print_2d n2 b ∧ print_2d n1 a = print_2d n1 a := by
  unfold print_2d
  rw [hr, hcol] at hl
  rw [hn, hr, hcol, h0, hl]
  exact ⟨rfl, rfl⟩

/-- A name for the diagnostic label used in the `print_2d` witness. -/
def sampleName : String :=
  "output"

theorem C8_print_2d_bounded_witness :
    print_2d sampleName (make_2d 2) = print_2d sampleName (writeCell (make_2d 2) 0 1 99) ∧
    print_2d sampleName (make_2d 2) = print_2d sampleName (make_2d 2) :=
  C8_print_2d_bounded sampleName sampleName (make_2d 2) (writeCell (make_2d 2) 0 1 99)
    rfl (by decide) (by decide) (by decide) (by decide)

/-- C9: in the all-ones variant, for `1 ≤ kernel_size ≤ image_size`, every
element of the valid-mode output equals `kernel_size * kernel_size`. -/
theorem C9_ones_valid_constant (isz ksz : Nat) (_h1 : 1 ≤ ksz) (h2 : ksz ≤ isz) :
    convolveValid (onesArr isz) (onesArr ksz)
      = some ⟨isz - ksz + 1, isz - ksz + 1, fun _ _ => (ksz : Int) * (ksz : Int)⟩ := by
  unfold convolveValid onesArr
  rw [if_pos ⟨h2, h2⟩]
  congr 1
  congr 1
  funext i j
  have h : (fun u v : Nat => (1 : Int) * 1) = fun _ _ : Nat => (1 : Int) := by
    funext u v
    ring
  rw [show ((fun u v : Nat => (1 : Int) * 1) : Nat → Nat → Int)
        = fun _ _ : Nat => (1 : Int) from h]
  rw [sum2_const]
  ring

theorem C9_ones_valid_constant_witness :
    convolveValid (onesArr 3) (onesArr 2)
      = some ⟨3 - 2 + 1, 3 - 2 + 1, fun _ _ => ((2 : Nat) : Int) * ((2 : Nat) : Int)⟩ :=
  C9_ones_valid_constant 3 2 (by decide) (by decide)

/-- C10: the fill loop of `make_2d` writes every element of the `side × side`
buffer before returning, so every in-range element of the result equals
`i + j` and the result is independent of the unspecified contents `np.empty`
started from. -/
theorem C10_make_2d_no_uninit (side : Nat) (init1 init2 : Nat → Nat → Int)
    (i j : Nat) (hi : i < side) (hj : j < side) :
    (makeTwoDFrom init1 side).data i j = (i : Int) + (j : Int) ∧
    (makeTwoDFrom init1 side).data i j = (makeTwoDFrom init2 side).data i j := by
  rw [makeTwoDFrom_data init1 side i j hi hj, makeTwoDFrom_data init2 side i j hi hj]
  exact ⟨rfl, rfl⟩

theorem C10_make_2d_no_uninit_witness :
    (makeTwoDFrom (fun _ _ => 37) 2).data 1 0 = (1 : Int) + (0 : Int) ∧
    (makeTwoDFrom (fun _ _ => 37) 2).data 1 0 = (makeTwoDFrom (fun _ _ => -5) 2).data 1 0 :=
  C10_make_2d_no_uninit 2 (fun _ _ => 37) (fun _ _ => -5) 1 0 (by decide) (by decide)
